import Mathlib

/-!
Verification of `psycopg3/dbapi20.py`: DBAPI 2.0 compatibility objects.

The module is shallowly embedded: Python values that matter to the claims are
modelled by inductive types, machine floats by exact rationals (`ℚ`), fallible
constructors and raising code paths by `Except`.  External collaborators
(the oid registry from `.oids`, the `Escaping` engine from `.pq`, the host
`time.localtime`, and the Python builtins `bytes`, `datetime`, `round`) are
modelled from the specification where noted, since their code is not part of
this module.
-/

deriving instance DecidableEq for Except

namespace DBAPI20

/-! ### Type categories (`DBAPITypeObject`) -/

/-- Error raised at category construction when a symbolic type name is not in
the oid registry (a `KeyError` on `builtins[n]` in the source; the spec names
it `UnknownTypeName`). -/
inductive DBError where
  | unknownTypeName (n : String)
deriving DecidableEq

/-- A `DBAPITypeObject`: a named category with the tuple of member oids
resolved at construction (`self.name`, `self.values` in the source). -/
structure DBAPITypeObject where
  name : String
  values : List Int
deriving DecidableEq

/-- The Python values a category can be compared against: integers, and
non-integer values (strings, `None`).  Python `bool` is an `int` subclass and
therefore falls under the integer case, not here. -/
inductive PyVal where
  | int (i : Int)
  | str (s : String)
  | pynone
deriving DecidableEq

/-- Result of a Python rich comparison: a boolean, or `NotImplemented`. -/
inductive CmpResult where
  | bool (b : Bool)
  | notImplemented
deriving DecidableEq

/-- `DBAPITypeObject.__eq__`: `other in self.values` for integers,
`NotImplemented` otherwise.  Total by construction: it never raises. -/
def DBAPITypeObject.eq (t : DBAPITypeObject) (other : PyVal) : CmpResult :=
  match other with
  | .int i => .bool (decide (i ∈ t.values))
  | _ => .notImplemented

/-- `DBAPITypeObject.__ne__`: `other not in self.values` for integers,
`NotImplemented` otherwise. -/
def DBAPITypeObject.ne (t : DBAPITypeObject) (other : PyVal) : CmpResult :=
  match other with
  | .int i => .bool (!decide (i ∈ t.values))
  | _ => .notImplemented

/-- Modelled from the spec: the external oid registry `builtins` (the
`postgres_types` table of the `.oids` module, which is not part of this
module) maps a symbolic type name to a record exposing an integer `oid`;
it is modelled as a partial map from names directly to oids. -/
def OidRegistry : Type := String → Option Int

/-- `tuple(builtins[n].oid for n in type_names)`: resolve the names left to
right, raising `UnknownTypeName` at the first name absent from the
registry. -/
def resolveOids (builtins : OidRegistry) : List String → Except DBError (List Int)
  | [] => .ok []
  | n :: ns =>
    match builtins n with
    | some o =>
      match resolveOids builtins ns with
      | .ok os => .ok (o :: os)
      | .error e => .error e
    | none => .error (.unknownTypeName n)

/-- `DBAPITypeObject.__init__`: store the name and the member oids resolved
through the registry. -/
def DBAPITypeObject.init (builtins : OidRegistry) (name : String)
    (type_names : List String) : Except DBError DBAPITypeObject :=
  match resolveOids builtins type_names with
  | .ok vs => .ok ⟨name, vs⟩
  | .error e => .error e

/-- Membership in the resolved values is exactly resolution of some name. -/
lemma mem_resolveOids {builtins : OidRegistry} {names : List String}
    {vs : List Int} (h : resolveOids builtins names = .ok vs) (i : Int) :
    i ∈ vs ↔ ∃ n ∈ names, builtins n = some i := by
  induction names generalizing vs with
  | nil =>
    simp only [resolveOids] at h
    cases h
    simp
  | cons n ns ih =>
    simp only [resolveOids] at h
    cases hb : builtins n with
    | none => rw [hb] at h; cases h
    | some o =>
      rw [hb] at h
      cases hr : resolveOids builtins ns with
      | error e => rw [hr] at h; cases h
      | ok os =>
        rw [hr] at h
        cases h
        simp only [List.mem_cons]
        constructor
        · rintro (rfl | hi)
          · exact ⟨n, Or.inl rfl, hb⟩
          · obtain ⟨m, hm, hbm⟩ := (ih hr).mp hi
            exact ⟨m, Or.inr hm, hbm⟩
        · rintro ⟨m, (rfl | hm), hbm⟩
          · left
            rw [hb] at hbm
            exact (Option.some_injective _ hbm).symm
          · right
            exact (ih hr).mpr ⟨m, hm, hbm⟩

/-- Successful resolution relates names and oids pointwise. -/
lemma resolveOids_forall₂ {builtins : OidRegistry} {names : List String}
    {vs : List Int} (h : resolveOids builtins names = .ok vs) :
    List.Forall₂ (fun n o => builtins n = some o) names vs := by
  induction names generalizing vs with
  | nil =>
    simp only [resolveOids] at h
    cases h
    exact List.Forall₂.nil
  | cons n ns ih =>
    simp only [resolveOids] at h
    cases hb : builtins n with
    | none => rw [hb] at h; cases h
    | some o =>
      rw [hb] at h
      cases hr : resolveOids builtins ns with
      | error e => rw [hr] at h; cases h
      | ok os =>
        rw [hr] at h
        cases h
        exact List.Forall₂.cons hb (ih hr)

/-- Resolution succeeds when every name is present in the registry. -/
lemma resolveOids_isOk {builtins : OidRegistry} {names : List String}
    (h : ∀ n ∈ names, (builtins n).isSome) :
    ∃ vs, resolveOids builtins names = .ok vs := by
  induction names with
  | nil => exact ⟨[], rfl⟩
  | cons n ns ih =>
    obtain ⟨o, ho⟩ := Option.isSome_iff_exists.mp (h n (List.mem_cons_self n ns))
    obtain ⟨os, hos⟩ := ih (fun m hm => h m (List.mem_cons_of_mem n hm))
    refine ⟨o :: os, ?_⟩
    simp only [resolveOids, ho, hos]

/-- Resolution fails when some name is absent from the registry. -/
lemma resolveOids_isError {builtins : OidRegistry} :
    ∀ {names : List String}, (∃ n ∈ names, builtins n = none) →
      ∃ m ∈ names, resolveOids builtins names = .error (.unknownTypeName m) ∧
        builtins m = none := by
  intro names
  induction names with
  | nil => rintro ⟨n, hn, -⟩; simp at hn
  | cons n ns ih =>
    intro h
    cases hb : builtins n with
    | none =>
      exact ⟨n, List.mem_cons_self n ns, by simp only [resolveOids, hb], hb⟩
    | some o =>
      have hns : ∃ m ∈ ns, builtins m = none := by
        obtain ⟨m, hm, hbm⟩ := h
        rcases List.mem_cons.mp hm with rfl | hm'
        · rw [hb] at hbm; cases hbm
        · exact ⟨m, hm', hbm⟩
      obtain ⟨m, hm, hres, hbm⟩ := ih hns
      refine ⟨m, List.mem_cons_of_mem n hm, ?_, hbm⟩
      simp only [resolveOids, hb, hres]

/-- A small concrete registry used to instantiate hypotheses on concrete
inputs. -/
def testRegistry : OidRegistry := fun n => if n = "bytea" then some 17 else none

/-- C9: constructing a type category resolves every symbolic name through the
oid registry; when all names resolve, construction succeeds with exactly the
resolved oids as members, and when some name is absent it fails with
`UnknownTypeName`. -/
theorem DBAPITypeObject_init_resolves (builtins : OidRegistry) (name : String)
    (names : List String) :
    ((∀ n ∈ names, (builtins n).isSome) →
      ∃ t, DBAPITypeObject.init builtins name names = .ok t ∧ t.name = name ∧
        List.Forall₂ (fun n o => builtins n = some o) names t.values)
    ∧ ((∃ n ∈ names, builtins n = none) →
      ∃ m ∈ names, DBAPITypeObject.init builtins name names =
        .error (.unknownTypeName m) ∧ builtins m = none) := by
  constructor
  · intro h
    obtain ⟨vs, hvs⟩ := resolveOids_isOk h
    exact ⟨⟨name, vs⟩, by simp only [DBAPITypeObject.init, hvs], rfl,
      resolveOids_forall₂ hvs⟩
  · intro h
    obtain ⟨m, hm, hres, hbm⟩ := resolveOids_isError h
    exact ⟨m, hm, by simp only [DBAPITypeObject.init, hres], hbm⟩

/-- Witness for C9 at concrete inputs: `["bytea"]` resolves against the test
registry while `["nope"]` makes construction fail. -/
theorem DBAPITypeObject_init_resolves_witness :
    (∃ t, DBAPITypeObject.init testRegistry "BINARY" ["bytea"] = .ok t ∧
        t.name = "BINARY" ∧
        List.Forall₂ (fun n o => testRegistry n = some o) ["bytea"] t.values)
    ∧ ∃ m ∈ ["nope"], DBAPITypeObject.init testRegistry "X" ["nope"] =
        .error (.unknownTypeName m) ∧ testRegistry m = none :=
  ⟨(DBAPITypeObject_init_resolves testRegistry "BINARY" ["bytea"]).1
      (by decide),
   (DBAPITypeObject_init_resolves testRegistry "X" ["nope"]).2
      ⟨"nope", by simp, by decide⟩⟩

/-- C4: for a category built by `__init__`, equality against an integer is
`True` exactly when the integer is one of the member oids resolved at
construction and `False` for every other integer; any non-integer input
yields `NotImplemented`.  `DBAPITypeObject.eq` is a total function, so the
comparison never raises. -/
theorem DBAPITypeObject_eq_membership (builtins : OidRegistry) (name : String)
    (names : List String) (t : DBAPITypeObject)
    (h : DBAPITypeObject.init builtins name names = .ok t) :
    (∀ i : Int,
      (t.eq (.int i) = .bool true ↔ ∃ n ∈ names, builtins n = some i)
      ∧ (t.eq (.int i) = .bool false ↔ ¬∃ n ∈ names, builtins n = some i))
    ∧ ∀ v : PyVal, (∀ i : Int, v ≠ .int i) → t.eq v = .notImplemented := by
  have hvals : ∀ i : Int, i ∈ t.values ↔ ∃ n ∈ names, builtins n = some i := by
    simp only [DBAPITypeObject.init] at h
    cases hres : resolveOids builtins names with
    | error e => rw [hres] at h; cases h
    | ok vs =>
      rw [hres] at h
      cases h
      exact mem_resolveOids hres
  refine ⟨fun i => ⟨?_, ?_⟩, fun v hv => ?_⟩
  · rw [← hvals i]
    simp [DBAPITypeObject.eq]
  · rw [← hvals i]
    simp [DBAPITypeObject.eq]
  · cases v with
    | int i => exact absurd rfl (hv i)
    | str s => rfl
    | pynone => rfl

/-- Witness for C4: in the category built from `["bytea"]` over the test
registry, equality against `17` is `True` because `"bytea"` resolves
to `17`. -/
theorem DBAPITypeObject_eq_membership_witness :
    (DBAPITypeObject.eq ⟨"BINARY", [17]⟩ (.int 17) = .bool true ↔
      ∃ n ∈ ["bytea"], testRegistry n = some 17) :=
  ((DBAPITypeObject_eq_membership testRegistry "BINARY" ["bytea"]
      ⟨"BINARY", [17]⟩ (by decide)).1 17).1

/-- C10: against an integer, `__ne__` returns exactly the boolean negation of
`__eq__` (both examine membership in the same `values` tuple), and against a
non-integer both return `NotImplemented`. -/
theorem DBAPITypeObject_ne_negates_eq (t : DBAPITypeObject) :
    (∀ i : Int,
      (t.ne (.int i) = .bool true ↔ t.eq (.int i) = .bool false)
      ∧ (t.ne (.int i) = .bool false ↔ t.eq (.int i) = .bool true))
    ∧ ∀ v : PyVal, (∀ i : Int, v ≠ .int i) →
        t.eq v = .notImplemented ∧ t.ne v = .notImplemented := by
  refine ⟨fun i => ?_, fun v hv => ?_⟩
  · simp only [DBAPITypeObject.eq, DBAPITypeObject.ne]
    cases hd : decide (i ∈ t.values) <;> simp
  · cases v with
    | int i => exact absurd rfl (hv i)
    | str s => exact ⟨rfl, rfl⟩
    | pynone => exact ⟨rfl, rfl⟩

/-- Witness for C10: both comparisons return `NotImplemented` on a string. -/
theorem DBAPITypeObject_ne_negates_eq_witness :
    DBAPITypeObject.eq ⟨"BINARY", [17]⟩ (.str "x") = .notImplemented ∧
    DBAPITypeObject.ne ⟨"BINARY", [17]⟩ (.str "x") = .notImplemented :=
  (DBAPITypeObject_ne_negates_eq ⟨"BINARY", [17]⟩).2 (.str "x")
    (fun _ h => PyVal.noConfusion h)

/-! ### The `Binary` wrapper and its dumpers -/

/-- The payloads a `Binary` wrapper can carry, as far as the dumpers are
concerned: a raw byte sequence (each element `< 256`), a sequence of Python
integers, or some other object. -/
inductive Payload where
  | bytes (bs : List Nat)
  | intSeq (xs : List Int)
  | str (s : String)
  | pynone
deriving DecidableEq

/-- `Binary`: a transparent holder for a payload (`self.obj`). -/
structure Binary where
  obj : Payload
deriving DecidableEq

/-- `Binary.__repr__`, as a function of `sobj = repr(self.obj)` — the
payload's debug representation, computed by the host and modelled as a list
of characters.  If `sobj` is longer than 40 characters it is replaced by its
35-character head followed by `" ... (<N> byteschars)"` with `N` the length
of the untruncated representation; the result is wrapped in
`"Binary(...)"`. -/
def Binary.reprFrom (sobj : List Char) : List Char :=
  let sobj' :=
    if sobj.length > 40 then
      sobj.take 35 ++ (" ... (".toList ++ (toString sobj.length).toList
        ++ " byteschars)".toList)
    else sobj
  "Binary(".toList ++ sobj' ++ ")".toList

/-- The adaptation error: the payload cannot be coerced to bytes (a
`TypeError`/`ValueError` from `bytes(...)` in the source; the spec names it
`UnsupportedPayloadType`). -/
inductive AdaptError where
  | unsupportedPayloadType
deriving DecidableEq

/-- Modelled from the spec: the standard "construct bytes from this value"
coercion of the target language (the Python builtin `bytes(...)`, external
to this module).  A byte sequence is returned as such, a sequence of
integers in `[0, 256)` becomes the corresponding bytes, anything else fails
with `UnsupportedPayloadType`. -/
def pyBytes : Payload → Except AdaptError (List Nat)
  | .bytes bs => .ok bs
  | .intSeq xs =>
    if xs.all fun x => 0 ≤ x && x < 256 then .ok (xs.map Int.toNat)
    else .error .unsupportedPayloadType
  | _ => .error .unsupportedPayloadType

/-- `BinaryBinaryDumper.dump`: return the wrapped payload unchanged when it
already is a byte sequence, otherwise coerce it with `bytes(...)`. -/
def BinaryBinaryDumper.dump (obj : Binary) : Except AdaptError (List Nat) :=
  match obj.obj with
  | .bytes bs => .ok bs
  | w => pyBytes w

/-- An opaque low-level connection handle (`pgconn`). -/
def PGconn : Type := Unit

/-- The wire-protocol connection object, exposing its `pgconn` handle. -/
structure Connection where
  pgconn : PGconn

/-- The adaptation context a dumper is constructed against; its connection
is optional (`None` when no connection is active). -/
structure AdaptContext where
  connection : Option Connection

/-- One ASCII hex digit (lower case) for a value `< 16`. -/
def hexDigit (n : Nat) : Nat := if n < 10 then 48 + n else 87 + n

/-- Modelled from the spec: the escaping engine of the `.pq` module, external
to this module.  It is constructible from an optional `pgconn` handle — from
`None` it must still succeed and use default server-compatible escape rules —
and exposes `escape_bytea`, modelled as the PostgreSQL hex format
`\x` followed by two hex digits per byte, independent of any live
connection. -/
structure Escaping where
  conn : Option PGconn

/-- `escape_bytea(data)`: hex-escape the bytes (same rule set with or
without a live connection). -/
def Escaping.escape_bytea (_e : Escaping) (data : List Nat) : List Nat :=
  92 :: 120 :: data.flatMap fun b => [hexDigit (b / 16), hexDigit (b % 16)]

/-- The text-format dumper: it stores the escaping engine resolved once at
construction (`self._esc`). -/
structure BinaryTextDumper where
  esc : Escaping

/-- `BinaryTextDumper.__init__`: resolve `self.connection` from the optional
context (as the `Dumper` base does) and build the escaping engine from
`self.connection.pgconn if self.connection else None`. -/
def BinaryTextDumper.init (context : Option AdaptContext) :
    Except AdaptError BinaryTextDumper :=
  let connection : Option Connection := context.bind fun c => c.connection
  .ok ⟨⟨connection.map fun c => c.pgconn⟩⟩

/-- `BinaryTextDumper.dump`: obtain the raw bytes from the binary variant,
then escape them (`self._esc.escape_bytea(data)`); an error from the binary
variant propagates. -/
def BinaryTextDumper.dump (self : BinaryTextDumper) (obj : Binary) :
    Except AdaptError (List Nat) :=
  match BinaryBinaryDumper.dump obj with
  | .ok data => .ok (self.esc.escape_bytea data)
  | .error e => .error e

/-- C1: for every wrapper, the text-format dump is exactly the binary-format
dump followed by the escaping collaborator's `escape_bytea` — no other
transformation, and a binary-stage failure propagates unchanged. -/
theorem BinaryTextDumper_dump_is_escaped_binary (self : BinaryTextDumper)
    (obj : Binary) :
    self.dump obj = (BinaryBinaryDumper.dump obj).map self.esc.escape_bytea := by
  unfold BinaryTextDumper.dump
  cases BinaryBinaryDumper.dump obj <;> rfl

/-- C2: constructing the text-format dumper with no adaptation context (no
active connection) succeeds and yields a connection-free escaping engine;
its dump works and agrees with the dumper built from any context, since the
escape rules do not depend on a live connection. -/
theorem BinaryTextDumper_init_connectionless (bs : List Nat)
    (ctx : Option AdaptContext) :
    ∃ d, BinaryTextDumper.init none = .ok d ∧ d.esc = ⟨none⟩ ∧
      d.dump ⟨.bytes bs⟩ = .ok (Escaping.escape_bytea ⟨none⟩ bs) ∧
      ∃ d2, BinaryTextDumper.init ctx = .ok d2 ∧
        d2.dump ⟨.bytes bs⟩ = d.dump ⟨.bytes bs⟩ :=
  ⟨⟨⟨none⟩⟩, rfl, rfl, rfl,
    ⟨⟨(ctx.bind fun c => c.connection).map Connection.pgconn⟩⟩, rfl, rfl⟩

/-- C5: the binary-format dump returns an already-bytes payload unchanged;
any other payload goes through the standard bytes coercion, and a payload
the coercion rejects fails with `UnsupportedPayloadType`. -/
theorem BinaryBinaryDumper_dump_spec :
    (∀ bs : List Nat, BinaryBinaryDumper.dump ⟨.bytes bs⟩ = .ok bs)
    ∧ (∀ p : Payload, (∀ bs, p ≠ .bytes bs) →
        BinaryBinaryDumper.dump ⟨p⟩ = pyBytes p)
    ∧ (∀ p : Payload, pyBytes p = .error .unsupportedPayloadType →
        BinaryBinaryDumper.dump ⟨p⟩ = .error .unsupportedPayloadType) := by
  refine ⟨fun bs => rfl, fun p hp => ?_, fun p hp => ?_⟩
  · cases p with
    | bytes bs => exact absurd rfl (hp bs)
    | intSeq xs => rfl
    | str s => rfl
    | pynone => rfl
  · cases p with
    | bytes bs => cases hp
    | intSeq xs => exact hp
    | str s => exact hp
    | pynone => exact hp

/-- Witness for C5: byte identity on `b"\x00\x01\xff"`, coercion of an
integer sequence, and failure on an uncoercible payload. -/
theorem BinaryBinaryDumper_dump_spec_witness :
    BinaryBinaryDumper.dump ⟨.bytes [0, 1, 255]⟩ = .ok [0, 1, 255]
    ∧ BinaryBinaryDumper.dump ⟨.intSeq [0, 1]⟩ = pyBytes (.intSeq [0, 1])
    ∧ BinaryBinaryDumper.dump ⟨.str "x"⟩ = .error .unsupportedPayloadType :=
  ⟨BinaryBinaryDumper_dump_spec.1 [0, 1, 255],
   BinaryBinaryDumper_dump_spec.2.1 (.intSeq [0, 1])
     (fun _ h => Payload.noConfusion h),
   BinaryBinaryDumper_dump_spec.2.2 (.str "x") rfl⟩

/-- C6: the wrapper's diagnostic string keeps the payload representation
untouched when it has at most 40 characters; past 40 characters it becomes
the exact 35-character head plus `" ... (<N> byteschars)"`, `N` being the
length of the untruncated representation. -/
theorem Binary_repr_truncation (sobj : List Char) :
    (sobj.length ≤ 40 →
      Binary.reprFrom sobj = "Binary(".toList ++ sobj ++ ")".toList)
    ∧ (40 < sobj.length →
      Binary.reprFrom sobj = "Binary(".toList ++ (sobj.take 35 ++
          (" ... (".toList ++ (toString sobj.length).toList
            ++ " byteschars)".toList)) ++ ")".toList
      ∧ (sobj.take 35).length = 35) := by
  constructor
  · intro h
    have : ¬sobj.length > 40 := by omega
    simp only [Binary.reprFrom, this, if_false]
  · intro h
    refine ⟨by simp only [Binary.reprFrom, h, if_true], ?_⟩
    rw [List.length_take]
    omega

/-- Witness for C6: a 40-character representation is returned untruncated;
a 41-character one is cut to its 35-character head plus
`" ... (41 byteschars)"`. -/
theorem Binary_repr_truncation_witness :
    (Binary.reprFrom (List.replicate 40 'a') =
      "Binary(".toList ++ List.replicate 40 'a' ++ ")".toList)
    ∧ (Binary.reprFrom (List.replicate 41 'a') =
        "Binary(".toList ++ ((List.replicate 41 'a').take 35 ++
          (" ... (".toList ++ (toString (List.replicate 41 'a').length).toList
            ++ " byteschars)".toList)) ++ ")".toList
      ∧ ((List.replicate 41 'a').take 35).length = 35) :=
  ⟨(Binary_repr_truncation (List.replicate 40 'a')).1 (by simp),
   (Binary_repr_truncation (List.replicate 41 'a')).2 (by simp)⟩

/-! ### Timestamp reconstruction from epoch ticks

The float `ticks` argument is modelled as an exact rational; `math.floor`,
Python's banker's `round`, `time.localtime` and the `datetime` constructor
are modelled below. -/

/-- Gregorian leap-year test. -/
def isLeap (y : Int) : Bool := y % 4 == 0 && (y % 100 != 0 || y % 400 == 0)

/-- Length of a month in the proleptic Gregorian calendar. -/
def daysInMonth (y m : Int) : Int :=
  if m = 2 then (if isLeap y then 29 else 28)
  else if m = 4 ∨ m = 6 ∨ m = 9 ∨ m = 11 then 30 else 31

/-- Error raised by the `datetime` constructor on an out-of-range field
(Python's `ValueError`, e.g. for `microsecond = 1_000_000`). -/
inductive DTError where
  | valueOutOfRange
deriving DecidableEq

/-- Modelled from the spec: a Python `datetime.datetime` carrying a fixed
UTC offset (`utcoffset`, in seconds, from the attached
`timezone(timedelta(seconds=...))`). -/
structure PyDateTime where
  year : Int
  month : Int
  day : Int
  hour : Int
  minute : Int
  second : Int
  microsecond : Int
  utcoffset : Int
deriving DecidableEq

/-- Modelled from the spec: the `datetime.datetime` constructor, which
validates every field (`1 ≤ year ≤ 9999`, calendar-valid month and day,
in-range time fields, `0 ≤ microsecond < 1_000_000`) and raises
`ValueError` otherwise. -/
def PyDateTime.make (y mo d h mi s us off : Int) : Except DTError PyDateTime :=
  if 1 ≤ y ∧ y ≤ 9999 ∧ 1 ≤ mo ∧ mo ≤ 12 ∧ 1 ≤ d ∧ d ≤ daysInMonth y mo
      ∧ 0 ≤ h ∧ h < 24 ∧ 0 ≤ mi ∧ mi < 60 ∧ 0 ≤ s ∧ s < 60
      ∧ 0 ≤ us ∧ us < 1000000 then
    .ok ⟨y, mo, d, h, mi, s, us, off⟩
  else .error .valueOutOfRange

/-- Modelled from the spec: Python's builtin `round` on an exact value —
round half to even. -/
def pyRound (q : ℚ) : ℤ :=
  if q - ⌊q⌋ = 1/2 then (if ⌊q⌋ % 2 = 0 then ⌊q⌋ else ⌊q⌋ + 1) else round q

/-- The fields of a `time.struct_time` that the module uses: `t[:6]` and
`t.tm_gmtoff`. -/
structure TmStruct where
  tm_year : Int
  tm_mon : Int
  tm_mday : Int
  tm_hour : Int
  tm_min : Int
  tm_sec : Int
  tm_gmtoff : Int
deriving DecidableEq

/-- Civil date from a count of days since 1970-01-01 (proleptic Gregorian,
the classic era-based algorithm). -/
def civilFromDays (z0 : Int) : Int × Int × Int :=
  let z := z0 + 719468
  let era := z.fdiv 146097
  let doe := z - era * 146097
  let yoe := (doe - doe.fdiv 1460 + doe.fdiv 36524 - doe.fdiv 146096).fdiv 365
  let y := yoe + era * 400
  let doy := doe - (365 * yoe + yoe.fdiv 4 - yoe.fdiv 100)
  let mp := (5 * doy + 2).fdiv 153
  let d := doy - (153 * mp + 2).fdiv 5 + 1
  let m := mp + (if mp < 10 then 3 else -9)
  (y + (if m ≤ 2 then 1 else 0), m, d)

/-- Modelled from the spec: `time.localtime` resolves the local calendar
fields and UTC offset at the given instant through the host timezone
database; this concrete instance is the UTC host (offset 0).  CPython
floors a float argument, so the function takes whole seconds. -/
def utcLocaltime (secs : Int) : TmStruct :=
  let days := secs.fdiv 86400
  let sod := secs - days * 86400
  let c := civilFromDays days
  ⟨c.1, c.2.1, c.2.2, sod.fdiv 3600, (sod - sod.fdiv 3600 * 3600).fdiv 60,
    sod - sod.fdiv 60 * 60, 0⟩

/-- `TimestampFromTicks`: split `ticks` into whole seconds (`floor`) and the
fractional remainder, take the local calendar fields and offset at that
instant, and build a `datetime` whose microseconds are the rounded
fraction.  The host timezone behaviour is a parameter. -/
def TimestampFromTicks (localtime : Int → TmStruct) (ticks : ℚ) :
    Except DTError PyDateTime :=
  let secs : Int := ⌊ticks⌋
  let frac : ℚ := ticks - (secs : ℚ)
  let t := localtime secs
  PyDateTime.make t.tm_year t.tm_mon t.tm_mday t.tm_hour t.tm_min t.tm_sec
    (pyRound (frac * 1000000)) t.tm_gmtoff

/-- A Python `datetime.date`. -/
structure PyDate where
  year : Int
  month : Int
  day : Int
deriving DecidableEq

/-- A naive Python `datetime.time` (what `.time()` returns: no tzinfo). -/
structure PyTime where
  hour : Int
  minute : Int
  second : Int
  microsecond : Int
deriving DecidableEq

/-- `datetime.date()`: the date component. -/
def PyDateTime.date (d : PyDateTime) : PyDate := ⟨d.year, d.month, d.day⟩

/-- `datetime.time()`: the time-of-day component. -/
def PyDateTime.time (d : PyDateTime) : PyTime :=
  ⟨d.hour, d.minute, d.second, d.microsecond⟩

/-- `DateFromTicks`: `TimestampFromTicks(ticks).date()` (an error from the
reconstruction propagates). -/
def DateFromTicks (localtime : Int → TmStruct) (ticks : ℚ) :
    Except DTError PyDate :=
  (TimestampFromTicks localtime ticks).map PyDateTime.date

/-- `TimeFromTicks`: `TimestampFromTicks(ticks).time()`. -/
def TimeFromTicks (localtime : Int → TmStruct) (ticks : ℚ) :
    Except DTError PyTime :=
  (TimestampFromTicks localtime ticks).map PyDateTime.time

/-- Days since 1970-01-01 of a civil date (inverse direction of
`civilFromDays`). -/
def daysFromCivil (y m d : Int) : Int :=
  let y' := y - (if m ≤ 2 then 1 else 0)
  let era := y'.fdiv 400
  let yoe := y' - era * 400
  let mp := m + (if 2 < m then -3 else 9)
  let doy := (153 * mp + 2).fdiv 5 + d - 1
  let doe := yoe * 365 + yoe.fdiv 4 - yoe.fdiv 100 + doy
  era * 146097 + doe - 719468

/-- Whole seconds since the epoch of a `datetime` with a fixed offset (the
integer part of Python's aware `datetime.timestamp()`). -/
def epochSeconds (d : PyDateTime) : Int :=
  daysFromCivil d.year d.month d.day * 86400 + d.hour * 3600 + d.minute * 60
    + d.second - d.utcoffset

/-- The inverse "seconds since epoch" projection of an aware `datetime`
(Python's `datetime.timestamp()`), exact. -/
def timestampProj (d : PyDateTime) : ℚ :=
  (epochSeconds d : ℚ) + (d.microsecond : ℚ) / 1000000

/-- Whole seconds since the epoch of a `struct_time` reinterpreted through
its own offset. -/
def epochOfTm (t : TmStruct) : Int :=
  daysFromCivil t.tm_year t.tm_mon t.tm_mday * 86400 + t.tm_hour * 3600
    + t.tm_min * 60 + t.tm_sec - t.tm_gmtoff

/-- Banker's rounding is off by at most one half. -/
lemma abs_pyRound_sub (q : ℚ) : |(pyRound q : ℚ) - q| ≤ 1/2 := by
  unfold pyRound
  split
  case isTrue h =>
    split
    · rw [abs_le]
      constructor <;> linarith
    · rw [abs_le]
      push_cast
      constructor <;> linarith
  case isFalse h =>
    rw [abs_sub_comm]
    exact abs_sub_round q

/-- `round(999999.9)` is `1_000_000`. -/
lemma pyRound_overflow : pyRound ((9999999 : ℚ) / 10) = 1000000 := by
  have hf : ⌊(9999999 : ℚ) / 10⌋ = 999999 := by
    rw [Int.floor_eq_iff]
    norm_num
  unfold pyRound
  rw [hf, if_neg (by norm_num), round_eq, Int.floor_eq_iff]
  norm_num

/-- Evaluating the reconstruction at `ticks = 0.9999999` (UTC host): the
rounded microsecond value reaches `1_000_000` and the `datetime`
constructor rejects it. -/
lemma timestampFromTicks_overflow_eval :
    TimestampFromTicks utcLocaltime ((9999999 : ℚ) / 10000000) =
      .error .valueOutOfRange := by
  have h1 : ⌊(9999999 : ℚ) / 10000000⌋ = 0 := by
    rw [Int.floor_eq_iff]
    norm_num
  have h2 : ((9999999 : ℚ) / 10000000 - ((0 : ℤ) : ℚ)) * 1000000 =
      (9999999 : ℚ) / 10 := by norm_num
  simp only [TimestampFromTicks, h1, h2, pyRound_overflow]
  decide

/-- Evaluating the reconstruction at `ticks = 0.5` (UTC host). -/
lemma timestampFromTicks_half_eval :
    TimestampFromTicks utcLocaltime (1/2 : ℚ) =
      .ok ⟨1970, 1, 1, 0, 0, 0, 500000, 0⟩ := by
  have h1 : ⌊(1/2 : ℚ)⌋ = 0 := by
    rw [Int.floor_eq_iff]
    norm_num
  have h2 : ((1/2 : ℚ) - ((0 : ℤ) : ℚ)) * 1000000 = ((500000 : ℤ) : ℚ) := by
    norm_num
  have h3 : pyRound ((500000 : ℤ) : ℚ) = 500000 := by
    unfold pyRound
    rw [Int.floor_intCast, if_neg (by norm_num)]
    exact round_intCast 500000
  simp only [TimestampFromTicks, h1, h2, h3]
  decide

/-- The UTC host localtime inverts the epoch projection at instant 0. -/
lemma epochOfTm_utc_half : epochOfTm (utcLocaltime ⌊(1/2 : ℚ)⌋) = ⌊(1/2 : ℚ)⌋ := by
  have h1 : ⌊(1/2 : ℚ)⌋ = 0 := by
    rw [Int.floor_eq_iff]
    norm_num
  rw [h1]
  decide

/-- C3: the code does not carry a microsecond overflow into the seconds
field.  At `ticks = 0.9999999` (= `1.0 - 1e-7`) the rounded fraction is
exactly `1_000_000` microseconds and the `datetime` constructor raises
`ValueError` instead of yielding second 1, microsecond 0: the claimed carry
behaviour (which the spec states as the intent) is absent from the code. -/
theorem TimestampFromTicks_overflow_unguarded :
    pyRound (((9999999 : ℚ) / 10000000 -
        ((⌊(9999999 : ℚ) / 10000000⌋ : ℤ) : ℚ)) * 1000000) = 1000000
    ∧ TimestampFromTicks utcLocaltime ((9999999 : ℚ) / 10000000) =
        .error .valueOutOfRange := by
  have h1 : ⌊(9999999 : ℚ) / 10000000⌋ = 0 := by
    rw [Int.floor_eq_iff]
    norm_num
  have h2 : ((9999999 : ℚ) / 10000000 - ((0 : ℤ) : ℚ)) * 1000000 =
      (9999999 : ℚ) / 10 := by norm_num
  exact ⟨by rw [h1, h2, pyRound_overflow], timestampFromTicks_overflow_eval⟩

/-- C7 as stated is false: `ticks = 0.9999999` is finite and well inside the
host calendar's range, yet the reconstruction produces no timestamp at all
(microsecond rounding overflows and the constructor raises), so no
projection of its result can recover the ticks value. -/
theorem TimestampFromTicks_roundtrip_cex :
    ¬∃ d : PyDateTime,
      TimestampFromTicks utcLocaltime ((9999999 : ℚ) / 10000000) = .ok d
      ∧ |timestampProj d - (9999999 : ℚ) / 10000000| ≤ 1/1000000 := by
  rintro ⟨d, hd, -⟩
  rw [timestampFromTicks_overflow_eval] at hd
  cases hd

/-- C7 (amended): whenever the reconstruction succeeds — i.e. the rounded
fraction does not overflow — projecting seconds-since-epoch back out of the
produced timestamp recovers the ticks value to within one microsecond.  The
host localtime is assumed to invert the epoch projection at the instant
used, which is the contract of the external timezone database. -/
theorem TimestampFromTicks_roundtrip (localtime : Int → TmStruct) (ticks : ℚ)
    (d : PyDateTime)
    (hlt : epochOfTm (localtime ⌊ticks⌋) = ⌊ticks⌋)
    (hd : TimestampFromTicks localtime ticks = .ok d) :
    |timestampProj d - ticks| ≤ 1/1000000 := by
  simp only [TimestampFromTicks, PyDateTime.make] at hd
  split at hd
  case isFalse => cases hd
  case isTrue hok =>
    injection hd with hd
    subst hd
    have hproj : timestampProj ⟨(localtime ⌊ticks⌋).tm_year,
        (localtime ⌊ticks⌋).tm_mon, (localtime ⌊ticks⌋).tm_mday,
        (localtime ⌊ticks⌋).tm_hour, (localtime ⌊ticks⌋).tm_min,
        (localtime ⌊ticks⌋).tm_sec,
        pyRound ((ticks - (⌊ticks⌋ : ℚ)) * 1000000),
        (localtime ⌊ticks⌋).tm_gmtoff⟩ =
        ((epochOfTm (localtime ⌊ticks⌋) : ℤ) : ℚ) +
          ((pyRound ((ticks - (⌊ticks⌋ : ℚ)) * 1000000) : ℤ) : ℚ) / 1000000 :=
      rfl
    rw [hproj, hlt]
    have hr := abs_pyRound_sub ((ticks - (⌊ticks⌋ : ℚ)) * 1000000)
    rw [abs_le] at hr ⊢
    constructor <;> linarith

/-- Witness for C7 (amended) at `ticks = 0.5` on the UTC host. -/
theorem TimestampFromTicks_roundtrip_witness :
    |timestampProj ⟨1970, 1, 1, 0, 0, 0, 500000, 0⟩ - (1/2 : ℚ)| ≤ 1/1000000 :=
  TimestampFromTicks_roundtrip utcLocaltime (1/2)
    ⟨1970, 1, 1, 0, 0, 0, 500000, 0⟩ epochOfTm_utc_half
    timestampFromTicks_half_eval

/-- C8: `DateFromTicks` and `TimeFromTicks` return exactly the date and
time-of-day components of the timestamp built by `TimestampFromTicks` on
the same ticks — they are projections of that one reconstruction, so the
three can never disagree. -/
theorem FromTicks_projections (localtime : Int → TmStruct) (ticks : ℚ)
    (d : PyDateTime) (hd : TimestampFromTicks localtime ticks = .ok d) :
    DateFromTicks localtime ticks = .ok d.date
    ∧ TimeFromTicks localtime ticks = .ok d.time := by
  unfold DateFromTicks TimeFromTicks
  rw [hd]
  exact ⟨rfl, rfl⟩

/-- Witness for C8 at `ticks = 0.5` on the UTC host. -/
theorem FromTicks_projections_witness :
    DateFromTicks utcLocaltime (1/2 : ℚ) =
      .ok (PyDateTime.date ⟨1970, 1, 1, 0, 0, 0, 500000, 0⟩)
    ∧ TimeFromTicks utcLocaltime (1/2 : ℚ) =
      .ok (PyDateTime.time ⟨1970, 1, 1, 0, 0, 0, 500000, 0⟩) :=
  FromTicks_projections utcLocaltime (1/2) ⟨1970, 1, 1, 0, 0, 0, 500000, 0⟩
    timestampFromTicks_half_eval

end DBAPI20
